import Mathlib

/-!
Verification of the MAHSR-T3 Daily Progress Report engine.

Shallow embedding of the aggregation, matrix-compilation, validation and
distribution logic of the repository.  Numeric quantities (Python floats fed
through `float(...)`) are modelled as rationals; external effects (the record
store, the SMTP channel, the delivery-log table) are modelled as explicit
oracle arguments, with `Except` representing a call that may raise.
-/

/-- One activity entry of a daily report, as delivered by the record store
(`report_activities` rows mapped in `get_reports_from_db`). -/
structure Activity where
  activity_name : String
  unit : String
  target : ℚ
  achieved : ℚ
  cumulative : ℚ
  remarks : String
deriving DecidableEq, Repr

/-- One daily report row with its nested activities, as delivered by the
record store (`daily_reports` joined with `report_activities`).  The report
date is modelled as an integer day index, used only for `≤`-cutoff queries. -/
structure Report where
  site_code : String
  report_date : Int
  weather : String
  total_workers : Int
  remarks : String
  activities : List Activity
deriving DecidableEq, Repr

/-- The fixed activity catalog `activities_map`, shared verbatim by
`create_dpr_excel` (src/utils/export_excel.py) and
`get_activity_wise_metrics` (src/utils/analytics.py): ordered
(activity name, unit) pairs. -/
def activities_map : List (String × String) :=
  [("Segment Casting", "Nos"),
   ("Segment Demolding", "Nos"),
   ("Segment Curing", "Nos"),
   ("Segment Transportation", "Nos"),
   ("Quality Inspection", "Nos"),
   ("Reinforcement Work", "Kg"),
   ("Concrete Work", "Cu.m"),
   ("Formwork Installation", "Sq.m"),
   ("Formwork Removal", "Sq.m"),
   ("Steel Fixing", "MT")]

/-- The three running accumulators (`target_sum`, `achieved_sum`,
`cumulative_max` — or the three totals) threaded through the aggregation
loops. -/
structure Agg where
  target : ℚ
  achieved : ℚ
  cumulative : ℚ
deriving DecidableEq, Repr

/-- One step of the name-matched aggregation loop, exactly as in
`create_dpr_excel` and `get_activity_wise_metrics`:
`target_sum += target; achieved_sum += achieved;
if cumulative > cumulative_max: cumulative_max = cumulative`,
all guarded by `activity.get('activity_name') == activity_name`. -/
def stepMatch (name : String) (acc : Agg) (a : Activity) : Agg :=
  if a.activity_name == name then
    { target := acc.target + a.target
      achieved := acc.achieved + a.achieved
      cumulative := if a.cumulative > acc.cumulative then a.cumulative else acc.cumulative }
  else acc

/-- All activity entries of the given site's reports, flattened in order.
`reports_by_site` in the Python groups reports into a dict of lists keyed by
site code in first-seen order; the list a single site maps to is exactly the
order-preserving filter below, and the matrix loops then walk that list's
reports and their activities. -/
def siteEntries (reports : List Report) (site : String) : List Activity :=
  (reports.filter (fun r => r.site_code == site)).flatMap (fun r => r.activities)

/-- One (site, activity) cell of the export matrix: the inner double loop of
`create_dpr_excel` lines 134-155 over `site_reports` and their activities. -/
def cellAgg (reports : List Report) (site name : String) : Agg :=
  (siteEntries reports site).foldl (stepMatch name) ⟨0, 0, 0⟩

/-- One step of the TOTAL-row loop of `create_dpr_excel` lines 181-186:
all three fields are summed over every activity entry of the site,
`total_cumulative += float(activity.get('cumulative', 0))` included. -/
def totalStep (acc : Agg) (a : Activity) : Agg :=
  { target := acc.target + a.target
    achieved := acc.achieved + a.achieved
    cumulative := acc.cumulative + a.cumulative }

/-- The TOTAL-row cell for one site, `create_dpr_excel` lines 173-191. -/
def siteTotalAgg (reports : List Report) (site : String) : Agg :=
  (siteEntries reports site).foldl totalStep ⟨0, 0, 0⟩

/-- Activity-wise aggregation of `get_activity_wise_metrics`
(src/utils/analytics.py lines 196-224): the same name-matched sum/sum/max
loop, over all fetched reports regardless of site.  The Python rounds the
three accumulators to two decimals when building the output dict; the
pre-rounding accumulated values are modelled. -/
def activity_wise_agg (reports : List Report) (name : String) : Agg :=
  (reports.flatMap (fun r => r.activities)).foldl (stepMatch name) ⟨0, 0, 0⟩

/-- Cumulative-to-date value of `get_cumulative_progress`
(src/utils/analytics.py lines 281-320) for one activity name: the query
filters to the selected sites and `report_date ≤ end_date`, then the loop
keeps, per activity name, the maximum cumulative value seen (dict entries
start at 0).  Modelled per name: the value the `cumulative_data` dict holds
for `name` after the loop (0 when the name never occurs). -/
def cumulative_progress_val (store : List Report) (sites : List String)
    (end_date : Int) (name : String) : ℚ :=
  let reports := store.filter
    (fun r => sites.contains r.site_code && decide (r.report_date ≤ end_date))
  (reports.flatMap (fun r => r.activities)).foldl
    (fun m a =>
      if a.activity_name == name then
        (if a.cumulative > m then a.cumulative else m)
      else m) 0

/-- One data row of the compiled matrix: serial number, catalog name and
unit, and one `Agg` cell per site in site order. -/
structure MatrixRow where
  s_no : Nat
  activity_name : String
  unit : String
  cells : List Agg
deriving DecidableEq, Repr

/-- Structural content of the sheet `create_dpr_excel` writes: the catalog
data rows, the trailing TOTAL row (one cell per site), and the trailing
remarks block (one line per site that has reports).  Cosmetic formats,
merged headers and the period caption are presentation only and are not
modelled. -/
structure DprSheet where
  dataRows : List MatrixRow
  totalCells : List Agg
  remarksLines : List String
deriving DecidableEq, Repr

/-- Remarks line for one site, `create_dpr_excel` lines 208-219: the site's
last fetched report (`site_reports[-1]`) supplies weather, workers and
remarks; a site with no reports is omitted. -/
def siteRemark (reports : List Report) (site : String) : Option String :=
  match (reports.filter (fun r => r.site_code == site)).getLast? with
  | none => none
  | some r =>
      some (site ++ ": Weather - " ++ r.weather ++ " | Workers - "
        ++ toString r.total_workers ++ " | " ++ r.remarks)

/-- Structural model of `create_dpr_excel` (src/utils/export_excel.py):
one row per catalog activity in catalog order with serial numbers from 1,
per-site sum/sum/max cells, the TOTAL row of raw per-site sums, and the
remarks block. -/
def create_dpr_excel (reports_data : List Report) (sites : List String) : DprSheet :=
  { dataRows := activities_map.enum.map
      (fun p => { s_no := p.1 + 1
                  activity_name := p.2.1
                  unit := p.2.2
                  cells := sites.map (fun site => cellAgg reports_data site p.2.1) })
    totalCells := sites.map (fun site => siteTotalAgg reports_data site)
    remarksLines := sites.filterMap (fun site => siteRemark reports_data site) }

/-- One activity dict as submitted to `validate_report_data`
(src/utils/data_entry.py): name plus the three quantities (Python
`.get(..., 0)` defaults are modelled by the fields being present). -/
structure ActivityInput where
  activity_name : String
  target : ℚ
  achieved : ℚ
  cumulative : ℚ
deriving DecidableEq, Repr

/-- Per-entry validation errors of the `for idx, activity in enumerate`
loop of `validate_report_data` lines 68-81, in source order. -/
def entryErrors (a : ActivityInput) : List String :=
  (if a.achieved > a.target ∧ a.target > 0 then
    [a.activity_name ++ ": Achieved quantity cannot exceed target"] else [])
  ++ (if a.target < 0 then
    [a.activity_name ++ ": Target cannot be negative"] else [])
  ++ (if a.achieved < 0 then
    [a.activity_name ++ ": Achieved cannot be negative"] else [])
  ++ (if a.cumulative < 0 then
    [a.activity_name ++ ": Cumulative cannot be negative"] else [])

/-- The `not weather or weather.strip() == ""` test of
`validate_report_data`: a Python string is falsy or strips to the empty
string exactly when every character is whitespace. -/
def isBlank (s : String) : Bool := s.toList.all Char.isWhitespace

/-- `validate_report_data` (src/utils/data_entry.py lines 21-83), with
`today` passed explicitly for `date.today()` and dates as day indices.
A Python `date` object is always truthy, so the `if not report_date`
branch cannot fire for an actual date and is not modelled. -/
def validate_report_data (today : Int) (report_date : Int) (weather : String)
    (total_workers : Int) (activities_data : List ActivityInput) : List String :=
  (if report_date > today then ["Report date cannot be in the future"] else [])
  ++ (if isBlank weather then ["Weather condition is required"] else [])
  ++ (if total_workers < 0 then ["Total workers cannot be negative"] else [])
  ++ (if activities_data.isEmpty then ["At least one activity must be defined"] else [])
  ++ (if activities_data.any
        (fun a => decide (a.target > 0) || decide (a.achieved > 0) || decide (a.cumulative > 0))
      then []
      else ["At least one activity must have data entered (target, achieved, or cumulative)"])
  ++ activities_data.flatMap entryErrors

/-- SMTP configuration dict of `get_smtp_config` (src/utils/email_service.py);
only the fields `validate_smtp_config` inspects are modelled. -/
structure SmtpConfig where
  smtp_username : String
  smtp_password : String
  sender_email : String
deriving DecidableEq, Repr

/-- `validate_smtp_config` (src/utils/email_service.py lines 57-73):
the first missing required field is reported; an unset environment
variable defaults to `""`, so "missing" is emptiness. -/
def validate_smtp_config (config : SmtpConfig) : Bool × String :=
  if config.smtp_username = "" then
    (false, "Missing required configuration: smtp_username")
  else if config.smtp_password = "" then
    (false, "Missing required configuration: smtp_password")
  else if config.sender_email = "" then
    (false, "Missing required configuration: sender_email")
  else (true, "")

/-- One row of the `email_recipients` table. -/
structure Recipient where
  email : String
  name : String
  active : Bool
  report_types : List String
deriving DecidableEq, Repr

/-- `get_active_recipients` (src/utils/email_service.py lines 257-286):
the query keeps `active = True` rows, the list comprehension keeps those
whose `report_types` contain the requested type, and any raised error is
caught and degraded to `[]`.  The store call is the `Except` argument. -/
def get_active_recipients (fetchRec : Except String (List Recipient))
    (report_type : String) : List Recipient :=
  match fetchRec with
  | .error _ => []
  | .ok rows => (rows.filter (fun r => r.active)).filter
      (fun r => r.report_types.contains report_type)

/-- `get_reports_from_db` (src/utils/export_excel.py lines 227-279): a
successful query yields the mapped report rows (the field-by-field dict
mapping is the identity on the structured rows modelled here); a raised
error is caught, printed, and degraded to `[]`. -/
def get_reports_from_db (fetchRep : Except String (List Report)) : List Report :=
  match fetchRep with
  | .error _ => []
  | .ok rows => rows

/-- One row of the append-only `email_logs` table, as inserted by
`log_email_send`. -/
structure LogEntry where
  recipient_email : String
  subject : String
  report_date : Int
  attachment_name : String
  status : String
  error_message : Option String
deriving DecidableEq, Repr

/-- Observable side effects of one distribution run: the recipients for
which the SMTP channel was actually contacted, the delivery-log rows whose
insert was attempted, and the Boolean each `log_email_send` call returned. -/
structure RunTrace where
  channelAttempts : List String
  logWrites : List LogEntry
  logResults : List Bool
deriving DecidableEq, Repr

/-- The empty trace: a run that performed no channel contact and no log
insert. -/
def RunTrace.empty : RunTrace := ⟨[], [], []⟩

/-- Result of `send_email_with_attachment` plus its observable channel
contact. -/
structure SendAttempt where
  success : Bool
  error : String
  contacted : List String
deriving DecidableEq, Repr

/-- `send_email_with_attachment` (src/utils/email_service.py lines 196-254)
with the SMTP session abstracted as `channel` (recipient email ↦ the
(success, message) pair the Python returns after its try/except ladder).
The config is validated first; on failure the function returns without
contacting the channel. -/
def send_email_with_attachment (config : SmtpConfig)
    (channel : String → Bool × String) (recipient_email : String) : SendAttempt :=
  let v := validate_smtp_config config
  if v.1 = false then ⟨false, v.2, []⟩
  else ⟨(channel recipient_email).1, (channel recipient_email).2, [recipient_email]⟩

/-- `log_email_send` (src/utils/email_service.py lines 289-321): the insert
is attempted; a raised error is caught, printed, and turned into `False`. -/
def log_email_send (logChannel : LogEntry → Except String Unit)
    (entry : LogEntry) : Bool :=
  match logChannel entry with
  | .ok _ => true
  | .error _ => false

/-- Send statistics dict returned by `send_daily_report_to_all`. -/
structure SendStats where
  total : Nat
  sent : Nat
  failed : Nat
  message : String
deriving DecidableEq, Repr

/-- The per-recipient loop of `send_daily_report_to_all`
(src/utils/email_service.py lines 359-380): each recipient gets one
`send_email_with_attachment` call, the matching counter is bumped, and the
attempt is logged (the `log_email_send` result is ignored).  Returns
(sent count, failed count, trace), with trace components in loop order. -/
def sendLoop (config : SmtpConfig) (channel : String → Bool × String)
    (logChannel : LogEntry → Except String Unit)
    (subject : String) (report_date : Int) (filename : String) :
    List Recipient → Nat × Nat × RunTrace
  | [] => (0, 0, RunTrace.empty)
  | r :: rest =>
    let att := send_email_with_attachment config channel r.email
    let entry : LogEntry :=
      if att.success then
        ⟨r.email, subject, report_date, filename, "sent", none⟩
      else
        ⟨r.email, subject, report_date, filename, "failed", some att.error⟩
    let logged := log_email_send logChannel entry
    let rec_rest := sendLoop config channel logChannel subject report_date filename rest
    ((if att.success then rec_rest.1 + 1 else rec_rest.1),
     (if att.success then rec_rest.2.1 else rec_rest.2.1 + 1),
     ⟨att.contacted ++ rec_rest.2.2.channelAttempts,
      entry :: rec_rest.2.2.logWrites,
      logged :: rec_rest.2.2.logResults⟩)

/-- Zero-padded day/month field of `strftime`. -/
def pad2 (n : Nat) : String :=
  if n < 10 then "0" ++ toString n else toString n

/-- Calendar date for filename/subject formatting in the send path (the
report date also carries its day index for the store query and the log). -/
structure EmailDate where
  day : Nat
  month : Nat
  year : Nat
  index : Int
deriving DecidableEq, Repr

/-- `report_date.strftime('%d%m%Y')`. -/
def fmtDDMMYYYY (d : EmailDate) : String :=
  pad2 d.day ++ pad2 d.month ++ toString d.year

/-- `report_date.strftime('%d-%m-%Y')`. -/
def fmtDashed (d : EmailDate) : String :=
  pad2 d.day ++ "-" ++ pad2 d.month ++ "-" ++ toString d.year

/-- `send_daily_report_to_all` (src/utils/email_service.py lines 324-387):
resolve active daily recipients (empty ⇒ the neutral zero result with no
side effects); fetch the report rows (a failed fetch degrades to `[]`
inside `get_reports_from_db`); compile the export once; then run the
per-recipient loop and return the statistics dict plus the run trace.
The HTML body (`create_email_body`) carries no decision-relevant state
and is abstracted into the channel oracle. -/
def send_daily_report_to_all (fetchRec : Except String (List Recipient))
    (fetchRep : Except String (List Report)) (config : SmtpConfig)
    (channel : String → Bool × String) (logChannel : LogEntry → Except String Unit)
    (report_date : EmailDate) (sites : List String) : SendStats × RunTrace :=
  let recipients := get_active_recipients fetchRec "daily"
  if recipients.isEmpty then
    (⟨0, 0, 0, "No active recipients found"⟩, RunTrace.empty)
  else
    let reports_data := get_reports_from_db fetchRep
    let _excel := create_dpr_excel reports_data sites
    let filename := fmtDDMMYYYY report_date ++ "-DPR.xlsx"
    let subject := "MAHSR-T3 Daily Progress Report - " ++ fmtDashed report_date
    let res := sendLoop config channel logChannel subject report_date.index
      filename recipients
    (⟨recipients.length, res.1, res.2.1,
      "Sent " ++ toString res.1 ++ " of " ++ toString recipients.length ++ " emails"⟩,
     res.2.2)

/-- `should_send_daily_report` (src/utils/email_service.py lines 23-37):
fire exactly when the IST clock reads hour 10 and a minute within ±5 of 30.
The current IST hour and minute are passed explicitly. -/
def should_send_daily_report (hour minute : Nat) : Bool :=
  hour == 10 && decide (((minute : Int) - 30).natAbs ≤ 5)

/-- Outcome of one invocation of the scheduled entry point `main`
(src/send_daily_reports.py): outside the window it returns 0 immediately;
missing store credentials return 1; otherwise the distribution result is
reported (the generic exception path of the Python `try` is not reachable
in this effect-free model). -/
inductive MainOutcome where
  | skipped
  | credsError
  | completed (stats : SendStats)
deriving DecidableEq, Repr

/-- The process exit code `main` produces for each outcome:
`return 0` on skip, `return 1` on missing credentials, and after a
completed run `return 2 if result['failed'] > 0 else 0`
(src/send_daily_reports.py lines 26-59). -/
def exitCode : MainOutcome → Nat
  | .skipped => 0
  | .credsError => 1
  | .completed s => if s.failed > 0 then 2 else 0

/-- The four hard-coded site codes of `main`. -/
def mahsr_sites : List String :=
  ["TCB-407", "TCB-436", "TCB-469", "TCB-486"]

/-- The entry point `main` (src/send_daily_reports.py lines 21-65): gate on the IST clock,
check the store credentials (`os.getenv` yields `""` when unset), then run
`send_daily_report_to_all` for yesterday's date over the fixed site list.
Clock, credentials, store fetches, channel and log are explicit inputs. -/
def send_daily_reports_main (hour minute : Nat) (supabase_url supabase_key : String)
    (fetchRec : Except String (List Recipient))
    (fetchRep : Except String (List Report)) (config : SmtpConfig)
    (channel : String → Bool × String) (logChannel : LogEntry → Except String Unit)
    (yesterday : EmailDate) : MainOutcome × RunTrace :=
  if should_send_daily_report hour minute = false then
    (.skipped, RunTrace.empty)
  else if supabase_url = "" ∨ supabase_key = "" then
    (.credsError, RunTrace.empty)
  else
    let res := send_daily_report_to_all fetchRec fetchRep config channel
      logChannel yesterday mahsr_sites
    (.completed res.1, res.2)

lemma if_gt_eq_max (x y : ℚ) : (if y > x then y else x) = max x y := by
  rcases le_or_lt y x with h | h
  · rw [if_neg (not_lt.mpr h), max_eq_left h]
  · rw [if_pos h, max_eq_right h.le]

lemma foldl_stepMatch (n : String) (l : List Activity) (acc : Agg) :
    l.foldl (stepMatch n) acc =
      { target := acc.target
          + ((l.filter (fun a => a.activity_name == n)).map Activity.target).sum
        achieved := acc.achieved
          + ((l.filter (fun a => a.activity_name == n)).map Activity.achieved).sum
        cumulative :=
          ((l.filter (fun a => a.activity_name == n)).map Activity.cumulative).foldl
            max acc.cumulative } := by
  induction l generalizing acc with
  | nil => simp
  | cons a l ih =>
    cases h : (a.activity_name == n) with
    | false => simp [stepMatch, h, ih]
    | true => simp [stepMatch, h, ih, if_gt_eq_max, add_assoc]

lemma foldl_totalStep (l : List Activity) (acc : Agg) :
    l.foldl totalStep acc =
      { target := acc.target + (l.map Activity.target).sum
        achieved := acc.achieved + (l.map Activity.achieved).sum
        cumulative := acc.cumulative + (l.map Activity.cumulative).sum } := by
  induction l generalizing acc with
  | nil => simp
  | cons a l ih => simp [totalStep, ih, add_assoc]

lemma foldl_max_init_le (l : List ℚ) (a : ℚ) : a ≤ l.foldl max a := by
  induction l generalizing a with
  | nil => exact le_refl a
  | cons x l ih => exact le_trans (le_max_left a x) (ih (max a x))

lemma foldl_max_le_of_mem {x : ℚ} {l : List ℚ} (a : ℚ) (h : x ∈ l) :
    x ≤ l.foldl max a := by
  induction l generalizing a with
  | nil => cases h
  | cons y l ih =>
    rcases List.mem_cons.mp h with rfl | hx
    · exact le_trans (le_max_right a x) (foldl_max_init_le l (max a x))
    · exact ih (max a y) hx

lemma foldl_max_eq_or_mem (l : List ℚ) (a : ℚ) :
    l.foldl max a = a ∨ l.foldl max a ∈ l := by
  induction l generalizing a with
  | nil => exact Or.inl rfl
  | cons x l ih =>
    rcases ih (max a x) with h | h
    · rcases max_choice a x with hm | hm
      · exact Or.inl (by rw [List.foldl_cons, h, hm])
      · exact Or.inr (by rw [List.foldl_cons, h, hm]; exact List.mem_cons_self x l)
    · exact Or.inr (List.mem_cons_of_mem x h)

lemma sum_map_ite_zero (keys : List String) (b : String) (c : ℚ) (hb : b ∉ keys) :
    (keys.map (fun k => if b = k then c else 0)).sum = 0 := by
  induction keys with
  | nil => simp
  | cons k ks ih =>
    have hbk : ¬(b = k) := fun h => hb (h ▸ List.mem_cons_self k ks)
    have hbks : b ∉ ks := fun h => hb (List.mem_cons_of_mem k h)
    simp [hbk, ih hbks]

lemma sum_map_ite_single (keys : List String) (b : String) (c : ℚ)
    (hnd : keys.Nodup) (hb : b ∈ keys) :
    (keys.map (fun k => if b = k then c else 0)).sum = c := by
  induction keys with
  | nil => cases hb
  | cons k ks ih =>
    rcases List.mem_cons.mp hb with rfl | hbks
    · have hnot : b ∉ ks := (List.nodup_cons.mp hnd).1
      simp [sum_map_ite_zero ks b c hnot]
    · have hbk : ¬(b = k) := fun h => (List.nodup_cons.mp hnd).1 (h ▸ hbks)
      simp [hbk, ih (List.nodup_cons.mp hnd).2 hbks]

lemma sum_map_add (keys : List String) (f g : String → ℚ) :
    (keys.map (fun k => f k + g k)).sum = (keys.map f).sum + (keys.map g).sum := by
  induction keys with
  | nil => simp
  | cons k ks ih => simp [ih]; ring

lemma sum_partition (keys : List String) (f : Activity → ℚ) (l : List Activity)
    (hnd : keys.Nodup) (h : ∀ a ∈ l, a.activity_name ∈ keys) :
    (keys.map (fun k => ((l.filter (fun a => a.activity_name == k)).map f).sum)).sum
      = (l.map f).sum := by
  induction l with
  | nil => simp
  | cons a l ih =>
    have ha : a.activity_name ∈ keys := h a (List.mem_cons_self a l)
    have hl : ∀ x ∈ l, x.activity_name ∈ keys :=
      fun x hx => h x (List.mem_cons_of_mem a hx)
    have step : ∀ k, ((List.filter (fun x => x.activity_name == k) (a :: l)).map f).sum
        = (if a.activity_name = k then f a else 0)
          + ((l.filter (fun x => x.activity_name == k)).map f).sum := by
      intro k
      by_cases hk : a.activity_name = k
      · simp [List.filter_cons, beq_iff_eq, hk]
      · simp [List.filter_cons, beq_iff_eq, hk]
    have hfun : (fun k => ((List.filter (fun x => x.activity_name == k) (a :: l)).map f).sum)
        = (fun k => (if a.activity_name = k then f a else 0)
          + ((l.filter (fun x => x.activity_name == k)).map f).sum) := funext step
    rw [hfun, sum_map_add, sum_map_ite_single keys a.activity_name (f a) hnd ha, ih hl]
    simp

lemma foldl_guarded_max (n : String) (l : List Activity) (m : ℚ) :
    l.foldl (fun m a => if a.activity_name == n then
        (if a.cumulative > m then a.cumulative else m) else m) m
      = ((l.filter (fun a => a.activity_name == n)).map Activity.cumulative).foldl max m := by
  induction l generalizing m with
  | nil => rfl
  | cons a l ih =>
    cases h : (a.activity_name == n) with
    | false =>
      simp only [List.foldl_cons, List.filter_cons, h, Bool.false_eq_true, if_false]
      exact ih m
    | true =>
      simp only [List.foldl_cons, List.filter_cons, h, if_true, List.map_cons]
      rw [if_gt_eq_max]
      exact ih (max m a.cumulative)

lemma send_valid (config : SmtpConfig) (channel : String → Bool × String) (x : String)
    (h : (validate_smtp_config config).1 = true) :
    send_email_with_attachment config channel x
      = ⟨(channel x).1, (channel x).2, [x]⟩ := by
  simp [send_email_with_attachment, h]

lemma send_success_valid (config : SmtpConfig) (channel : String → Bool × String)
    (x : String)
    (h : (send_email_with_attachment config channel x).success = true) :
    (validate_smtp_config config).1 = true := by
  cases hvv : (validate_smtp_config config).1 with
  | true => rfl
  | false => simp [send_email_with_attachment, hvv] at h

lemma sendLoop_invalid (config : SmtpConfig) (channel : String → Bool × String)
    (logChannel : LogEntry → Except String Unit)
    (subject : String) (rd : Int) (fn : String)
    (hv : (validate_smtp_config config).1 = false) :
    ∀ rs : List Recipient,
      sendLoop config channel logChannel subject rd fn rs
        = (0, rs.length,
           ⟨[],
            rs.map (fun r =>
              ⟨r.email, subject, rd, fn, "failed", some (validate_smtp_config config).2⟩),
            rs.map (fun r => log_email_send logChannel
              ⟨r.email, subject, rd, fn, "failed", some (validate_smtp_config config).2⟩)⟩) := by
  intro rs
  induction rs with
  | nil => rfl
  | cons r rest ih => simp [sendLoop, ih, send_email_with_attachment, hv]

lemma sendLoop_log_eq (config : SmtpConfig) (channel : String → Bool × String)
    (l1 l2 : LogEntry → Except String Unit) (subject : String) (rd : Int) (fn : String) :
    ∀ rs : List Recipient,
      (sendLoop config channel l1 subject rd fn rs).1
        = (sendLoop config channel l2 subject rd fn rs).1
      ∧ (sendLoop config channel l1 subject rd fn rs).2.1
        = (sendLoop config channel l2 subject rd fn rs).2.1
      ∧ (sendLoop config channel l1 subject rd fn rs).2.2.channelAttempts
        = (sendLoop config channel l2 subject rd fn rs).2.2.channelAttempts
      ∧ (sendLoop config channel l1 subject rd fn rs).2.2.logWrites
        = (sendLoop config channel l2 subject rd fn rs).2.2.logWrites := by
  intro rs
  induction rs with
  | nil => exact ⟨rfl, rfl, rfl, rfl⟩
  | cons r rest ih =>
    obtain ⟨h1, h2, h3, h4⟩ := ih
    refine ⟨?_, ?_, ?_, ?_⟩ <;> simp [sendLoop, h1, h2, h3, h4]

lemma flatMap_nil_of_forall (l : List ActivityInput) (f : ActivityInput → List String)
    (h : ∀ a ∈ l, f a = []) : l.flatMap f = [] := by
  induction l with
  | nil => rfl
  | cons a l ih =>
    simp [h a (List.mem_cons_self a l),
      ih (fun x hx => h x (List.mem_cons_of_mem a hx))]

/-- Two reports of one site recording the same activity with cumulative 120
then 135 (the running-total duplication scenario of the spec). -/
def exDupReports : List Report :=
  [{ site_code := "TCB-407", report_date := 1, weather := "Sunny",
     total_workers := 40, remarks := "ok",
     activities := [{ activity_name := "Segment Casting", unit := "Nos",
                      target := 0, achieved := 0, cumulative := 120, remarks := "" }] },
   { site_code := "TCB-407", report_date := 2, weather := "Sunny",
     total_workers := 42, remarks := "ok",
     activities := [{ activity_name := "Segment Casting", unit := "Nos",
                      target := 0, achieved := 0, cumulative := 135, remarks := "" }] }]

/-- A complete SMTP configuration. -/
def cfgOk : SmtpConfig := ⟨"dpr-bot", "secret", "dpr@example.com"⟩

/-- An SMTP configuration with the username unset. -/
def cfgNoUser : SmtpConfig := ⟨"", "secret", "dpr@example.com"⟩

/-- A channel on which every send succeeds. -/
def chanOk : String → Bool × String := fun _ => (true, "Email sent successfully")

/-- A channel on which every send fails. -/
def chanFail : String → Bool × String :=
  fun _ => (false, "SMTP error: connection refused")

/-- A channel failing exactly for the second example recipient. -/
def chanFailSecond : String → Bool × String :=
  fun e => if e == "pm2@example.com"
    then (false, "SMTP error: connection refused")
    else (true, "Email sent successfully")

/-- A delivery-log table whose inserts succeed. -/
def logOk : LogEntry → Except String Unit := fun _ => Except.ok ()

/-- A delivery-log table whose inserts raise. -/
def logFail : LogEntry → Except String Unit :=
  fun _ => Except.error "insert failed"

/-- An example report date, 27/05/2025, day index 100. -/
def exDate : EmailDate := ⟨27, 5, 2025, 100⟩

/-- Example active daily recipients. -/
def rcpt1 : Recipient := ⟨"pm1@example.com", "PM One", true, ["daily"]⟩

def rcpt2 : Recipient := ⟨"pm2@example.com", "PM Two", true, ["daily"]⟩

def rcpt3 : Recipient := ⟨"pm3@example.com", "PM Three", true, ["daily"]⟩

/-- C1 (counterexample): the claim that the TOTAL row's Cumulative is a
column total of the already-maximized matrix cells fails on the code.  With
one site whose two reports record cumulative 120 and 135 for the same
activity, the matrix cell holds 135 but the TOTAL-row loop sums the raw
values to 255, which differs from the 135 column total of the cells. -/
theorem c1_total_cumulative_counterexample :
    (siteTotalAgg exDupReports "TCB-407").cumulative
      ≠ (activities_map.map
          (fun p => (cellAgg exDupReports "TCB-407" p.1).cumulative)).sum := by
  simp [siteTotalAgg, cellAgg, siteEntries, exDupReports, totalStep, stepMatch,
    activities_map]
  norm_num

/-- C1 (amended): in the TOTAL row of the compiled matrix, Target and
Achieved are genuine column totals of the matrix cells (whenever every
recorded activity name belongs to the catalog), but Cumulative is the sum
of every raw cumulative value across the site's reports and entries — not
the column total of the maximized Cumulative cells. -/
theorem c1_total_row_sums (reports : List Report) (site : String)
    (hnames : ∀ a ∈ siteEntries reports site,
      a.activity_name ∈ activities_map.map Prod.fst) :
    (siteTotalAgg reports site).target
      = (activities_map.map (fun p => (cellAgg reports site p.1).target)).sum ∧
    (siteTotalAgg reports site).achieved
      = (activities_map.map (fun p => (cellAgg reports site p.1).achieved)).sum ∧
    (siteTotalAgg reports site).cumulative
      = ((siteEntries reports site).map Activity.cumulative).sum := by
  have hnd : (activities_map.map Prod.fst).Nodup := by decide
  refine ⟨?_, ?_, ?_⟩
  · have h1 : (fun p : String × String => (cellAgg reports site p.1).target)
        = (fun k => (((siteEntries reports site).filter
            (fun a => a.activity_name == k)).map Activity.target).sum) ∘ Prod.fst := by
      funext p
      simp [cellAgg, foldl_stepMatch, Function.comp]
    rw [h1, ← List.map_map, sum_partition _ Activity.target _ hnd hnames]
    unfold siteTotalAgg
    rw [foldl_totalStep]
    simp
  · have h1 : (fun p : String × String => (cellAgg reports site p.1).achieved)
        = (fun k => (((siteEntries reports site).filter
            (fun a => a.activity_name == k)).map Activity.achieved).sum) ∘ Prod.fst := by
      funext p
      simp [cellAgg, foldl_stepMatch, Function.comp]
    rw [h1, ← List.map_map, sum_partition _ Activity.achieved _ hnd hnames]
    unfold siteTotalAgg
    rw [foldl_totalStep]
    simp
  · unfold siteTotalAgg
    rw [foldl_totalStep]
    simp

/-- C1 (witness): the amended TOTAL-row law applied to the duplicate
cumulative example, whose entries all carry catalog names. -/
theorem c1_total_row_sums_witness :
    (siteTotalAgg exDupReports "TCB-407").cumulative
      = ((siteEntries exDupReports "TCB-407").map Activity.cumulative).sum :=
  (c1_total_row_sums exDupReports "TCB-407" (by decide)).2.2

/-- C2: both the activity-wise aggregation and the cumulative-to-date
aggregation reduce the cumulative field by maximum over the matching rows
(an upper bound of all matching values, attained by one of them unless no
row matches and 0 is returned), while target and achieved are reduced by
sum; on the 120/135 duplicate example the cumulative aggregates to 135,
not to the 255 sum. -/
theorem c2_cumulative_by_max_not_sum (reports store : List Report)
    (sites : List String) (end_date : Int) (name : String) :
    (activity_wise_agg reports name).target
      = (((reports.flatMap (fun r => r.activities)).filter
          (fun a => a.activity_name == name)).map Activity.target).sum ∧
    (activity_wise_agg reports name).achieved
      = (((reports.flatMap (fun r => r.activities)).filter
          (fun a => a.activity_name == name)).map Activity.achieved).sum ∧
    (∀ a ∈ (reports.flatMap (fun r => r.activities)).filter
        (fun a => a.activity_name == name),
      a.cumulative ≤ (activity_wise_agg reports name).cumulative) ∧
    ((activity_wise_agg reports name).cumulative = 0 ∨
      ∃ a ∈ (reports.flatMap (fun r => r.activities)).filter
          (fun a => a.activity_name == name),
        (activity_wise_agg reports name).cumulative = a.cumulative) ∧
    (∀ a ∈ (((store.filter (fun r => sites.contains r.site_code
          && decide (r.report_date ≤ end_date))).flatMap
            (fun r => r.activities)).filter (fun a => a.activity_name == name)),
      a.cumulative ≤ cumulative_progress_val store sites end_date name) ∧
    (cumulative_progress_val store sites end_date name = 0 ∨
      ∃ a ∈ (((store.filter (fun r => sites.contains r.site_code
            && decide (r.report_date ≤ end_date))).flatMap
              (fun r => r.activities)).filter (fun a => a.activity_name == name)),
        cumulative_progress_val store sites end_date name = a.cumulative) ∧
    (activity_wise_agg exDupReports "Segment Casting").cumulative = 135 := by
  have hcum : (activity_wise_agg reports name).cumulative
      = (((reports.flatMap (fun r => r.activities)).filter
          (fun a => a.activity_name == name)).map Activity.cumulative).foldl max 0 := by
    unfold activity_wise_agg
    rw [foldl_stepMatch]
  have hp : cumulative_progress_val store sites end_date name
      = ((((store.filter (fun r => sites.contains r.site_code
            && decide (r.report_date ≤ end_date))).flatMap
              (fun r => r.activities)).filter
                (fun a => a.activity_name == name)).map Activity.cumulative).foldl max 0 :=
    foldl_guarded_max name _ 0
  refine ⟨?_, ?_, ?_, ?_, ?_, ?_, ?_⟩
  · unfold activity_wise_agg
    rw [foldl_stepMatch]
    simp
  · unfold activity_wise_agg
    rw [foldl_stepMatch]
    simp
  · intro a ha
    rw [hcum]
    exact foldl_max_le_of_mem 0 (List.mem_map_of_mem Activity.cumulative ha)
  · rw [hcum]
    rcases foldl_max_eq_or_mem (((reports.flatMap (fun r => r.activities)).filter
        (fun a => a.activity_name == name)).map Activity.cumulative) 0 with h | h
    · exact Or.inl h
    · obtain ⟨a, ha, hav⟩ := List.mem_map.mp h
      exact Or.inr ⟨a, ha, hav.symm⟩
  · intro a ha
    rw [hp]
    exact foldl_max_le_of_mem 0 (List.mem_map_of_mem Activity.cumulative ha)
  · rw [hp]
    rcases foldl_max_eq_or_mem ((((store.filter (fun r => sites.contains r.site_code
        && decide (r.report_date ≤ end_date))).flatMap
          (fun r => r.activities)).filter
            (fun a => a.activity_name == name)).map Activity.cumulative) 0 with h | h
    · exact Or.inl h
    · obtain ⟨a, ha, hav⟩ := List.mem_map.mp h
      exact Or.inr ⟨a, ha, hav.symm⟩
  · decide

/-- C6: for every input row set and site list, the compiled matrix has one
data row per catalog activity in catalog order (so catalog-size-plus-one
rows counting the trailing TOTAL row, which is always present with one cell
per site), and every (site, activity) cell with zero matching report rows
holds exactly the zero aggregate, never a missing value. -/
theorem c6_matrix_shape_and_zero_default (reports : List Report)
    (sites : List String) :
    (create_dpr_excel reports sites).dataRows.length = activities_map.length ∧
    (create_dpr_excel reports sites).dataRows.map MatrixRow.activity_name
      = activities_map.map Prod.fst ∧
    (create_dpr_excel reports sites).totalCells.length = sites.length ∧
    ∀ site name,
      (siteEntries reports site).filter (fun a => a.activity_name == name) = [] →
      cellAgg reports site name = ⟨0, 0, 0⟩ := by
  refine ⟨?_, ?_, ?_, ?_⟩
  · simp [create_dpr_excel]
  · rfl
  · simp [create_dpr_excel]
  · intro site name h
    unfold cellAgg
    rw [foldl_stepMatch, h]
    simp

/-- C3 (counterexample): the claim that a failing report fetch is a hard
error for the scheduler path fails on the code.  With the store raising,
the resolved recipient is still contacted on the channel and the run
reports a fully successful send of the report compiled from no data. -/
theorem c3_fetch_failure_still_sends :
    (send_daily_report_to_all (.ok [rcpt1]) (.error "connection refused")
        cfgOk chanOk logOk exDate mahsr_sites).1
      = ⟨1, 1, 0, "Sent 1 of 1 emails"⟩ ∧
    ((send_daily_report_to_all (.ok [rcpt1]) (.error "connection refused")
        cfgOk chanOk logOk exDate mahsr_sites).2).channelAttempts
      = ["pm1@example.com"] := by
  exact ⟨by decide, by decide⟩

/-- C3 (amended): a failing report fetch degrades to the empty report list
inside `get_reports_from_db`, and the scheduler run proceeds exactly as if
the store had returned zero reports, still attempting delivery to every
resolved recipient rather than surfacing an error. -/
theorem c3_fetch_failure_degrades_to_empty
    (fetchRec : Except String (List Recipient)) (config : SmtpConfig)
    (channel : String → Bool × String) (logChannel : LogEntry → Except String Unit)
    (d : EmailDate) (sites : List String) (e : String) :
    get_reports_from_db (.error e) = [] ∧
    send_daily_report_to_all fetchRec (.error e) config channel logChannel d sites
      = send_daily_report_to_all fetchRec (.ok []) config channel logChannel d sites ∧
    (send_daily_report_to_all fetchRec (.error e) config channel
        logChannel d sites).1.total
      = (get_active_recipients fetchRec "daily").length := by
  refine ⟨rfl, rfl, ?_⟩
  unfold send_daily_report_to_all
  cases hl : get_active_recipients fetchRec "daily" with
  | nil => simp
  | cons r rs => simp

/-- C4 (counterexample): the claim that missing delivery credentials cause
zero per-recipient delivery attempts and no per-recipient failure logging
fails on the code: with the SMTP username unset and two active recipients,
the run still iterates both recipients and writes one failure log entry
per recipient. -/
theorem c4_missing_config_still_logs_failures :
    ((send_daily_report_to_all (.ok [rcpt1, rcpt2]) (.ok [])
        cfgNoUser chanOk logOk exDate mahsr_sites).2).logWrites.map LogEntry.status
      = ["failed", "failed"] ∧
    (send_daily_report_to_all (.ok [rcpt1, rcpt2]) (.ok [])
        cfgNoUser chanOk logOk exDate mahsr_sites).1.failed = 2 := by
  exact ⟨by decide, by decide⟩

/-- C4 (amended): with missing delivery credentials the per-recipient
validation fails before the channel is contacted, so zero channel contacts
occur and nothing is sent; but the run still loops over every recipient,
reporting failed = total and writing one failure log entry per recipient
that carries the configuration error. -/
theorem c4_missing_config_no_channel_contact
    (fetchRec : Except String (List Recipient))
    (fetchRep : Except String (List Report)) (config : SmtpConfig)
    (channel : String → Bool × String) (logChannel : LogEntry → Except String Unit)
    (d : EmailDate) (sites : List String)
    (hv : (validate_smtp_config config).1 = false) :
    ((send_daily_report_to_all fetchRec fetchRep config channel
        logChannel d sites).2).channelAttempts = [] ∧
    (send_daily_report_to_all fetchRec fetchRep config channel
        logChannel d sites).1.sent = 0 ∧
    (send_daily_report_to_all fetchRec fetchRep config channel
        logChannel d sites).1.failed
      = (send_daily_report_to_all fetchRec fetchRep config channel
          logChannel d sites).1.total ∧
    ∀ en ∈ ((send_daily_report_to_all fetchRec fetchRep config channel
        logChannel d sites).2).logWrites,
      en.status = "failed"
        ∧ en.error_message = some (validate_smtp_config config).2 := by
  unfold send_daily_report_to_all
  cases hl : get_active_recipients fetchRec "daily" with
  | nil => simp [RunTrace.empty]
  | cons r rs =>
    have hsl := sendLoop_invalid config channel logChannel
      ("MAHSR-T3 Daily Progress Report - " ++ fmtDashed d) d.index
      (fmtDDMMYYYY d ++ "-DPR.xlsx") hv (r :: rs)
    simp only [List.isEmpty_cons, Bool.false_eq_true, if_false, hsl]
    refine ⟨by trivial, by trivial, by trivial, ?_⟩
    intro en hen
    obtain ⟨rr, _, rfl⟩ := List.mem_map.mp hen
    exact ⟨rfl, rfl⟩

/-- C4 (witness): the amended missing-credentials law at the concrete
username-less configuration with one recipient. -/
theorem c4_missing_config_no_channel_contact_witness :
    ((send_daily_report_to_all (.ok [rcpt1]) (.ok []) cfgNoUser chanOk logOk
        exDate mahsr_sites).2).channelAttempts = [] :=
  (c4_missing_config_no_channel_contact (.ok [rcpt1]) (.ok []) cfgNoUser
    chanOk logOk exDate mahsr_sites (by decide)).1

/-- C10: the summary statistics, the set of channel contacts and the log
entries attempted by a distribution run are identical under any two
delivery-log oracles: a failing log insert for any recipient is absorbed
inside `log_email_send` and changes neither the sent/failed/total counts
nor which recipients are attempted. -/
theorem c10_log_failure_absorbed (fetchRec : Except String (List Recipient))
    (fetchRep : Except String (List Report)) (config : SmtpConfig)
    (channel : String → Bool × String) (d : EmailDate) (sites : List String)
    (l1 l2 : LogEntry → Except String Unit) :
    (send_daily_report_to_all fetchRec fetchRep config channel l1 d sites).1
      = (send_daily_report_to_all fetchRec fetchRep config channel l2 d sites).1 ∧
    ((send_daily_report_to_all fetchRec fetchRep config channel
        l1 d sites).2).channelAttempts
      = ((send_daily_report_to_all fetchRec fetchRep config channel
          l2 d sites).2).channelAttempts ∧
    ((send_daily_report_to_all fetchRec fetchRep config channel
        l1 d sites).2).logWrites
      = ((send_daily_report_to_all fetchRec fetchRep config channel
          l2 d sites).2).logWrites := by
  unfold send_daily_report_to_all
  cases hl : get_active_recipients fetchRec "daily" with
  | nil => exact ⟨rfl, rfl, rfl⟩
  | cons r rs =>
    obtain ⟨h1, h2, h3, h4⟩ := sendLoop_log_eq config channel l1 l2
      ("MAHSR-T3 Daily Progress Report - " ++ fmtDashed d) d.index
      (fmtDDMMYYYY d ++ "-DPR.xlsx") (r :: rs)
    refine ⟨?_, ?_, ?_⟩ <;> simp [h1, h2, h3, h4]

/-- C7: with three resolved recipients of which exactly the second one's
send fails, the run continues past the failure and returns total=3, sent=2,
failed=1, writes exactly three delivery-log entries with statuses
sent/failed/sent in order, and contacts the first and third recipient on
the channel exactly once each. -/
theorem c7_distribution_isolation
    (fetchRec : Except String (List Recipient))
    (fetchRep : Except String (List Report)) (config : SmtpConfig)
    (channel : String → Bool × String) (logChannel : LogEntry → Except String Unit)
    (d : EmailDate) (sites : List String) (a b c : Recipient)
    (hr : get_active_recipients fetchRec "daily" = [a, b, c])
    (ha : (send_email_with_attachment config channel a.email).success = true)
    (hb : (send_email_with_attachment config channel b.email).success = false)
    (hc : (send_email_with_attachment config channel c.email).success = true)
    (hab : a.email ≠ b.email) (hac : a.email ≠ c.email) (hbc : b.email ≠ c.email) :
    (send_daily_report_to_all fetchRec fetchRep config channel
        logChannel d sites).1.total = 3 ∧
    (send_daily_report_to_all fetchRec fetchRep config channel
        logChannel d sites).1.sent = 2 ∧
    (send_daily_report_to_all fetchRec fetchRep config channel
        logChannel d sites).1.failed = 1 ∧
    ((send_daily_report_to_all fetchRec fetchRep config channel
        logChannel d sites).2).logWrites.length = 3 ∧
    ((send_daily_report_to_all fetchRec fetchRep config channel
        logChannel d sites).2).logWrites.map LogEntry.status
      = ["sent", "failed", "sent"] ∧
    ((send_daily_report_to_all fetchRec fetchRep config channel
        logChannel d sites).2).channelAttempts.count a.email = 1 ∧
    ((send_daily_report_to_all fetchRec fetchRep config channel
        logChannel d sites).2).channelAttempts.count c.email = 1 := by
  have hv : (validate_smtp_config config).1 = true :=
    send_success_valid config channel a.email ha
  have hsa := send_valid config channel a.email hv
  have hsb := send_valid config channel b.email hv
  have hsc := send_valid config channel c.email hv
  have ea : (channel a.email).1 = true := by rw [hsa] at ha; exact ha
  have eb : (channel b.email).1 = false := by rw [hsb] at hb; exact hb
  have ec : (channel c.email).1 = true := by rw [hsc] at hc; exact hc
  unfold send_daily_report_to_all
  rw [hr]
  simp only [List.isEmpty_cons, Bool.false_eq_true, if_false, sendLoop,
    hsa, hsb, hsc, ea, eb, ec, if_true]
  refine ⟨by trivial, by trivial, by trivial, by trivial, by trivial, ?_, ?_⟩ <;>
    simp [List.count_cons, RunTrace.empty, beq_iff_eq, hab, hac, hbc,
      Ne.symm hab, Ne.symm hac, Ne.symm hbc]

/-- C7 (witness): the isolation law at three concrete recipients with the
channel failing exactly for the second one. -/
theorem c7_distribution_isolation_witness :
    (send_daily_report_to_all (.ok [rcpt1, rcpt2, rcpt3]) (.ok []) cfgOk
        chanFailSecond logOk exDate mahsr_sites).1.sent = 2 :=
  (c7_distribution_isolation (.ok [rcpt1, rcpt2, rcpt3]) (.ok []) cfgOk
    chanFailSecond logOk exDate mahsr_sites rcpt1 rcpt2 rcpt3
    (by decide) (by decide) (by decide) (by decide)
    (by decide) (by decide) (by decide)).2.1

/-- C5 (counterexample): the claim that all-failed runs exit with a hard
error distinct from the partial-failure warning fails on the code: a run
in which all three sends fail and a run in which only one of three fails
both produce exit signal 2, while the hard-error signal 1 is produced only
by the missing-credentials path. -/
theorem c5_all_failed_exit_equals_partial :
    exitCode (send_daily_reports_main 10 30 "https://db.example" "service-key"
        (.ok [rcpt1, rcpt2, rcpt3]) (.ok []) cfgOk chanFail logOk exDate).1 = 2 ∧
    (send_daily_report_to_all (.ok [rcpt1, rcpt2, rcpt3]) (.ok []) cfgOk
        chanFail logOk exDate mahsr_sites).1.failed = 3 ∧
    exitCode (send_daily_reports_main 10 30 "https://db.example" "service-key"
        (.ok [rcpt1, rcpt2, rcpt3]) (.ok []) cfgOk chanFailSecond logOk exDate).1 = 2 ∧
    (send_daily_report_to_all (.ok [rcpt1, rcpt2, rcpt3]) (.ok []) cfgOk
        chanFailSecond logOk exDate mahsr_sites).1.failed = 1 ∧
    exitCode .credsError = 1 := by
  exact ⟨by decide, by decide, by decide, by decide, rfl⟩

/-- C5 (amended): a run that passes the time gate and the credential check
always completes with the distribution statistics, and its exit signal has
only two tiers: 0 when no send failed (including zero recipients) and 2
whenever at least one send failed, whether some or all — the all-failed
case carries no distinct hard-error signal. -/
theorem c5_completed_exit_two_tiers (hour minute : Nat) (url key : String)
    (fetchRec : Except String (List Recipient))
    (fetchRep : Except String (List Report)) (config : SmtpConfig)
    (channel : String → Bool × String) (logChannel : LogEntry → Except String Unit)
    (d : EmailDate)
    (hg : should_send_daily_report hour minute = true)
    (hu : url ≠ "") (hk : key ≠ "") :
    (send_daily_reports_main hour minute url key fetchRec fetchRep config
        channel logChannel d).1
      = .completed (send_daily_report_to_all fetchRec fetchRep config channel
          logChannel d mahsr_sites).1 ∧
    exitCode (send_daily_reports_main hour minute url key fetchRec fetchRep
        config channel logChannel d).1
      = (if (send_daily_report_to_all fetchRec fetchRep config channel
            logChannel d mahsr_sites).1.failed = 0 then 0 else 2) := by
  have h1 : (send_daily_reports_main hour minute url key fetchRec fetchRep
      config channel logChannel d).1
        = .completed (send_daily_report_to_all fetchRec fetchRep config channel
            logChannel d mahsr_sites).1 := by
    unfold send_daily_reports_main
    rw [hg]
    simp [hu, hk]
  refine ⟨h1, ?_⟩
  rw [h1]
  unfold exitCode
  rcases Nat.eq_zero_or_pos (send_daily_report_to_all fetchRec fetchRep config
      channel logChannel d mahsr_sites).1.failed with h | h
  · simp [h]
  · simp [h, Nat.pos_iff_ne_zero.mp h]

/-- C5 (witness): the two-tier exit law at a concrete in-window run with
zero recipients, whose exit signal is 0. -/
theorem c5_completed_exit_two_tiers_witness :
    exitCode (send_daily_reports_main 10 30 "https://db.example" "service-key"
        (.ok []) (.ok []) cfgOk chanOk logOk exDate).1 = 0 := by
  have h := c5_completed_exit_two_tiers 10 30 "https://db.example" "service-key"
    (.ok []) (.ok []) cfgOk chanOk logOk exDate (by decide) (by decide) (by decide)
  rw [h.2]
  decide

/-- C8: invoked at any clock reading more than five minutes away from the
10:30 IST target (reference timezone abstracted as the passed IST clock),
the gate is closed and the entry point returns the skipped outcome with the
empty trace: no recipient resolution, no compilation, no channel contact
and no log write takes place. -/
theorem c8_time_gate_skips (hour minute : Nat) (url key : String)
    (fetchRec : Except String (List Recipient))
    (fetchRep : Except String (List Report)) (config : SmtpConfig)
    (channel : String → Bool × String) (logChannel : LogEntry → Except String Unit)
    (d : EmailDate)
    (hh : hour < 24) (hm : minute < 60)
    (hfar : 5 < (((hour : Int) * 60 + minute) - 630).natAbs) :
    should_send_daily_report hour minute = false ∧
    send_daily_reports_main hour minute url key fetchRec fetchRep config
        channel logChannel d
      = (.skipped, RunTrace.empty) := by
  have hgate : should_send_daily_report hour minute = false := by
    unfold should_send_daily_report
    rcases eq_or_ne hour 10 with h10 | h10
    · subst h10
      simp only [beq_self_eq_true, Bool.true_and, decide_eq_false_iff_not, not_le]
      omega
    · simp [h10]
  refine ⟨hgate, ?_⟩
  unfold send_daily_reports_main
  rw [hgate]
  simp

/-- C8 (witness): the time gate at noon IST, ninety minutes from target. -/
theorem c8_time_gate_skips_witness :
    send_daily_reports_main 12 0 "https://db.example" "service-key"
        (.ok [rcpt1]) (.ok []) cfgOk chanOk logOk exDate
      = (.skipped, RunTrace.empty) :=
  (c8_time_gate_skips 12 0 "https://db.example" "service-key" (.ok [rcpt1])
    (.ok []) cfgOk chanOk logOk exDate (by decide) (by decide) (by decide)).2

lemma mem_validate_of_entry (today rd : Int) (w : String) (tw : Int)
    (acts : List ActivityInput) (a : ActivityInput) (ha : a ∈ acts) (msg : String)
    (hm : msg ∈ entryErrors a) : msg ∈ validate_report_data today rd w tw acts := by
  have hflat : msg ∈ acts.flatMap entryErrors := List.mem_flatMap.mpr ⟨a, ha, hm⟩
  unfold validate_report_data
  exact List.mem_append_right _ hflat

/-- C9: report validation rejects every activity entry whose achieved
exceeds a positive target, and every entry with a negative target, achieved
or cumulative, each with an error message naming that activity; and a
submission in which the header fields are in range, some activity carries
data, and every entry satisfies the invariants produces the empty error
list. -/
theorem c9_validate_report_data_law (today rd : Int) (w : String) (tw : Int)
    (acts : List ActivityInput) :
    (∀ a ∈ acts, a.target > 0 → a.achieved > a.target →
      (a.activity_name ++ ": Achieved quantity cannot exceed target")
        ∈ validate_report_data today rd w tw acts) ∧
    (∀ a ∈ acts, a.target < 0 →
      (a.activity_name ++ ": Target cannot be negative")
        ∈ validate_report_data today rd w tw acts) ∧
    (∀ a ∈ acts, a.achieved < 0 →
      (a.activity_name ++ ": Achieved cannot be negative")
        ∈ validate_report_data today rd w tw acts) ∧
    (∀ a ∈ acts, a.cumulative < 0 →
      (a.activity_name ++ ": Cumulative cannot be negative")
        ∈ validate_report_data today rd w tw acts) ∧
    (rd ≤ today → isBlank w = false → 0 ≤ tw → acts ≠ [] →
      (∃ a ∈ acts, a.target > 0 ∨ a.achieved > 0 ∨ a.cumulative > 0) →
      (∀ a ∈ acts, 0 ≤ a.target ∧ 0 ≤ a.achieved ∧ 0 ≤ a.cumulative ∧
        (a.target > 0 → a.achieved ≤ a.target)) →
      validate_report_data today rd w tw acts = []) := by
  refine ⟨?_, ?_, ?_, ?_, ?_⟩
  · intro a ha hpos hgt
    refine mem_validate_of_entry today rd w tw acts a ha _ ?_
    unfold entryErrors
    rw [if_pos (⟨hgt, hpos⟩ : a.achieved > a.target ∧ a.target > 0)]
    exact List.mem_append_left _ (List.mem_append_left _
      (List.mem_append_left _ (List.mem_singleton_self _)))
  · intro a ha hneg
    refine mem_validate_of_entry today rd w tw acts a ha _ ?_
    unfold entryErrors
    rw [if_pos hneg]
    exact List.mem_append_left _ (List.mem_append_left _
      (List.mem_append_right _ (List.mem_singleton_self _)))
  · intro a ha hneg
    refine mem_validate_of_entry today rd w tw acts a ha _ ?_
    unfold entryErrors
    rw [if_pos hneg]
    exact List.mem_append_left _
      (List.mem_append_right _ (List.mem_singleton_self _))
  · intro a ha hneg
    refine mem_validate_of_entry today rd w tw acts a ha _ ?_
    unfold entryErrors
    rw [if_pos hneg]
    exact List.mem_append_right _ (List.mem_singleton_self _)
  · intro h1 h2 h3 h4 h5 h6
    have e4 : acts.isEmpty = false := by
      cases acts with
      | nil => exact absurd rfl h4
      | cons x xs => rfl
    have e5 : (acts.any fun a => decide (a.target > 0) || decide (a.achieved > 0)
        || decide (a.cumulative > 0)) = true := by
      obtain ⟨a, ha, hp⟩ := h5
      refine List.any_eq_true.mpr ⟨a, ha, ?_⟩
      rcases hp with hp | hp | hp <;> simp [hp]
    have e6 : acts.flatMap entryErrors = [] := by
      refine flatMap_nil_of_forall acts entryErrors ?_
      intro a ha
      obtain ⟨g1, g2, g3, g4⟩ := h6 a ha
      unfold entryErrors
      rw [if_neg (fun hand => absurd hand.1 (not_lt.mpr (g4 hand.2))),
        if_neg (not_lt.mpr g1), if_neg (not_lt.mpr g2), if_neg (not_lt.mpr g3)]
      rfl
    unfold validate_report_data
    rw [if_neg (not_lt.mpr h1), if_neg (not_lt.mpr h3), e6]
    simp [h2, e4, e5]
